import Mathlib

/-!
Shallow embedding of the P2P proxy relay server (`p2p.py`).

The server keeps two global dictionaries:
  `peers    : Dict[str, WebSocket]`  -- peer id to its (single) websocket
  `requests : Dict[str, Dict]`       -- correlation id to pending-request info

Python dictionaries are modelled as insertion-ordered association lists with
unique keys: `dictInsert` overwrites in place, `dictErase` deletes the key,
`dictLookup` returns the first (hence only) binding.  WebSocket objects are
modelled by a numeric session id (`Nat`); a send is recorded as a pair of the
destination session id and the JSON payload sent.
-/

namespace P2P

/-- Lookup in a Python-dict modelled as an association list (first binding). -/
def dictLookup {α : Type} : List (String × α) → String → Option α
  | [], _ => none
  | p :: rest, key => if p.1 = key then some p.2 else dictLookup rest key

/-- Python-dict assignment `d[key] = v`: overwrite in place, else append. -/
def dictInsert {α : Type} : List (String × α) → String → α → List (String × α)
  | [], key, v => [(key, v)]
  | p :: rest, key, v => if p.1 = key then (key, v) :: rest else p :: dictInsert rest key v

/-- Python-dict deletion `del d[key]` (a dict holds each key at most once,
so removing every binding of the key is the same operation on real states). -/
def dictErase {α : Type} : List (String × α) → String → List (String × α)
  | [], _ => []
  | p :: rest, key => if p.1 = key then dictErase rest key else p :: dictErase rest key

/-- Source line 103: `next((p for p in peers if p != client_id), None)` —
the first key of `peers`, in insertion order, different from `client_id`.
When `client_id` is `None` every key qualifies, exactly as in Python. -/
def firstOther : List (String × Nat) → Option String → Option String
  | [], _ => none
  | p :: rest, cid => if cid = some p.1 then firstOther rest cid else some p.1

/-- Whitespace characters of the regex class `\s` (Python `re`, Unicode mode),
restricted to the code points that can occur in the strings of this
development (ASCII controls and the common Unicode space separators). -/
def pySpace (c : Char) : Bool :=
  c = ' ' || c = '\t' || c = '\n' || c = '\r' || c = '\x0b' || c = '\x0c' ||
  c = '\x1c' || c = '\x1d' || c = '\x1e' || c = '\x1f' || c = '\x85' || c = '\xa0' ||
  c = '\u1680' || ('\u2000' ≤ c && c ≤ '\u200a') || c = '\u2028' || c = '\u2029' ||
  c = '\u202f' || c = '\u205f' || c = '\u3000'

/-- Tail of the URL regex, `[^\s]*$`: every remaining character is
non-whitespace, except that `$` may also match just before one trailing
newline. -/
def tailSegOk : List Char → Bool
  | [] => true
  | c :: rest => if pySpace c then c == '\n' && rest.isEmpty else tailSegOk rest

/-- Body of the URL regex after the scheme: `[^\s/$.?#].[^\s]*$`
(one character outside the class, one arbitrary non-newline character,
then `tailSegOk`). -/
def urlCore : List Char → Bool
  | c1 :: c2 :: rest =>
      !pySpace c1 && !(c1 == '/') && !(c1 == '$') && !(c1 == '.') &&
      !(c1 == '?') && !(c1 == '#') && !(c2 == '\n') && tailSegOk rest
  | _ => false

/-- Source lines 58-63, `is_valid_url` on an actual string:
`re.match(r'^https?://[^\s/$.?#].[^\s]*$', url)`. -/
def isValidUrlStr (s : String) : Bool :=
  if s.data.take 7 = "http://".data then urlCore (s.data.drop 7)
  else if s.data.take 8 = "https://".data then urlCore (s.data.drop 8)
  else false

/-- `is_valid_url` including the `url = None` case: `re.match` then raises
`TypeError`, the bare `except` returns `False`. -/
def isValidUrl : Option String → Bool
  | none => false
  | some s => isValidUrlStr s

/-- One inbound JSON message, with every field the handler reads.  An absent
JSON field is `none` (the handler only uses `data.get`, which treats a
missing key this way).  `from_` renders the JSON key `"from"`, which is a
keyword in Lean.  `target_peer_id` is carried because the specification
mentions it; the source never reads it. -/
structure Msg where
  type : Option String := none
  url : Option String := none
  from_ : Option String := none
  method : Option String := none
  headers : Option (List (String × String)) := none
  body : Option String := none
  request_type : Option String := none
  request_id : Option String := none
  target_peer_id : Option String := none
  chunk : Option String := none
deriving DecidableEq

/-- One entry of the `requests` dict (source lines 96-100):
`{"client_id": ..., "source_peer_id": ..., "request_type": ...}`. -/
structure ReqInfo where
  client_id : Option String
  source_peer_id : Option String
  request_type : Option String
deriving DecidableEq

/-- A JSON payload passed to `send_json`, one constructor per dict literal in
the source (fetch: lines 107-115, error: 88-92 and 119-123, stream chunk:
138-142) plus `forward` for the places that resend the inbound `data`
verbatim (lines 130 and 150). -/
inductive OutMsg where
  | fetch (url : Option String) (request_id : String) (request_type : Option String)
      (method : String) (headers : List (String × String)) (body : Option String)
  | errorMsg (request_id : String) (message : String)
  | streamChunk (request_id : String) (chunk : Option String)
  | forward (data : Msg)
deriving DecidableEq

/-- Whether a sent payload is a `fetch` instruction. -/
def OutMsg.isFetch : OutMsg → Bool
  | .fetch .. => true
  | _ => false

/-- The JSON keys present in an inbound message (used only to give the keys
of a verbatim `forward`). -/
def Msg.presentKeys (m : Msg) : List String :=
  (if m.type.isSome then ["type"] else []) ++
  (if m.url.isSome then ["url"] else []) ++
  (if m.from_.isSome then ["from"] else []) ++
  (if m.method.isSome then ["method"] else []) ++
  (if m.headers.isSome then ["headers"] else []) ++
  (if m.body.isSome then ["body"] else []) ++
  (if m.request_type.isSome then ["request_type"] else []) ++
  (if m.request_id.isSome then ["request_id"] else []) ++
  (if m.target_peer_id.isSome then ["target_peer_id"] else []) ++
  (if m.chunk.isSome then ["chunk"] else [])

/-- The JSON keys of a sent payload, read off the dict literals of the
source: the fetch literal (lines 107-115) has exactly the keys `type`,
`url`, `request_id`, `request_type`, `method`, `headers`, `body` — and in
particular no `from` key. -/
def OutMsg.jsonKeys : OutMsg → List String
  | .fetch .. => ["type", "url", "request_id", "request_type", "method", "headers", "body"]
  | .errorMsg .. => ["type", "request_id", "message"]
  | .streamChunk .. => ["type", "request_id", "chunk"]
  | .forward d => d.presentKeys

/-- The whole mutable server state: the two global dicts. -/
structure ServerState where
  peers : List (String × Nat)
  requests : List (String × ReqInfo)
deriving DecidableEq

/-- Python `str.upper()` (source line 81, `data.get("method", "GET").upper()`),
modelled character-wise over the code points; core `String.toUpper` is not
used because its `mapAux` recursion does not reduce inside the kernel. -/
def pyUpper (s : String) : String :=
  ⟨s.data.map Char.toUpper⟩

/-- Source line 76:
`request_id = data.get("request_id", f"{data.get('from', peer_id)}_{data.get('url', '')[:50]}")`.
The correlation id is the supplied `request_id` verbatim when present,
otherwise the `from` identity (defaulting to the sender id) joined by `_`
to the first 50 characters of the URL. -/
def corrId (peerId : String) (m : Msg) : String :=
  match m.request_id with
  | some rid => rid
  | none => (m.from_.getD peerId) ++ "_" ++ (m.url.getD "").take 50

/-- The reply pattern `if client_id in peers: await peers[client_id].send_json({...error...})`
(source lines 87-92 and 118-123): an error payload goes to the session of
the `from` identity when that identity is registered, otherwise nothing is
sent. -/
def sendErrorTo (st : ServerState) (cid : Option String) (rid emsg : String) :
    List (Nat × OutMsg) :=
  match cid with
  | some c =>
      match dictLookup st.peers c with
      | some ws => [(ws, OutMsg.errorMsg rid emsg)]
      | none => []
  | none => []

/-- The `type == "request"` branch (source lines 78-123): validate the URL,
on failure reply with an error and change nothing; on success insert the
pending entry (executor unset), pick the first other registered peer, and
either record it as executor and send the `fetch`, or reply with a
no-peer error — in both cases the pending entry stays in the table. -/
def handleRequest (peerId : String) (st : ServerState) (m : Msg) :
    ServerState × List (Nat × OutMsg) :=
  if isValidUrl m.url then
    match firstOther st.peers m.from_ with
    | some tp =>
        match dictLookup st.peers tp with
        | some ws =>
            (⟨st.peers,
              dictInsert
                (dictInsert st.requests (corrId peerId m) ⟨m.from_, none, m.request_type⟩)
                (corrId peerId m) ⟨m.from_, some tp, m.request_type⟩⟩,
             [(ws, OutMsg.fetch m.url (corrId peerId m) m.request_type
                (pyUpper (m.method.getD "GET")) (m.headers.getD []) m.body)])
        | none =>
            (⟨st.peers,
              dictInsert
                (dictInsert st.requests (corrId peerId m) ⟨m.from_, none, m.request_type⟩)
                (corrId peerId m) ⟨m.from_, some tp, m.request_type⟩⟩, [])
    | none =>
        (⟨st.peers,
          dictInsert st.requests (corrId peerId m) ⟨m.from_, none, m.request_type⟩⟩,
         sendErrorTo st m.from_ (corrId peerId m) "Nenhum peer disponível")
  else
    (st, sendErrorTo st m.from_ (corrId peerId m) "URL inválida")

/-- Common lookup of the `response`/`stream_chunk`/`error` branches: the
session of the requester (`client_id`) of the pending entry for the
correlation id, provided the entry exists, its `client_id` is not `None`,
and that identity is registered. -/
def lookupClientWs (st : ServerState) (rid : String) : Option Nat :=
  match dictLookup st.requests rid with
  | some info =>
      match info.client_id with
      | some cid => dictLookup st.peers cid
      | none => none
  | none => none

/-- The `type == "response"` branch (source lines 125-132): forward the
inbound message verbatim to the requester's session, else do nothing. -/
def handleResponse (peerId : String) (st : ServerState) (m : Msg) :
    ServerState × List (Nat × OutMsg) :=
  match lookupClientWs st (corrId peerId m) with
  | some ws => (st, [(ws, OutMsg.forward m)])
  | none => (st, [])

/-- The `type == "stream_chunk"` branch (source lines 134-144): send a fresh
stream-chunk payload to the requester's session, else do nothing. -/
def handleStreamChunk (peerId : String) (st : ServerState) (m : Msg) :
    ServerState × List (Nat × OutMsg) :=
  match lookupClientWs st (corrId peerId m) with
  | some ws => (st, [(ws, OutMsg.streamChunk (corrId peerId m) m.chunk)])
  | none => (st, [])

/-- The `type == "error"` branch (source lines 146-150): forward the inbound
message verbatim to the requester's session, else do nothing. -/
def handleError (peerId : String) (st : ServerState) (m : Msg) :
    ServerState × List (Nat × OutMsg) :=
  match lookupClientWs st (corrId peerId m) with
  | some ws => (st, [(ws, OutMsg.forward m)])
  | none => (st, [])

/-- One decoded inbound message dispatched through the `if`/`elif` chain of
the receive loop (source lines 78-150).  A message whose `type` is none of
the four handled strings — `ping` included — falls through every branch
and does nothing. -/
def handleMessage (peerId : String) (st : ServerState) (m : Msg) :
    ServerState × List (Nat × OutMsg) :=
  if m.type = some "request" then handleRequest peerId st m
  else if m.type = some "response" then handleResponse peerId st m
  else if m.type = some "stream_chunk" then handleStreamChunk peerId st m
  else if m.type = some "error" then handleError peerId st m
  else (st, [])

/-- Connection accept (source lines 68-69): `peers[peer_id] = websocket`.
A second connection under the same identity overwrites the first binding. -/
def connect (peerId : String) (ws : Nat) (st : ServerState) : ServerState :=
  ⟨dictInsert st.peers peerId ws, st.requests⟩

/-- Pending entries that survive the disconnect purge (source line 159):
an entry is removed when `source_peer_id == peer_id or client_id == peer_id`. -/
def purgePending (reqs : List (String × ReqInfo)) (pid : String) :
    List (String × ReqInfo) :=
  reqs.filter (fun p => !(decide (p.2.source_peer_id = some pid ∨ p.2.client_id = some pid)))

/-- The `finally` cleanup of the websocket handler (source lines 156-162):
delete the identity's registry binding and purge every pending entry with
that identity as requester or executor.  It runs whenever the handler
exits, for any reason. -/
def disconnect (pid : String) (st : ServerState) : ServerState :=
  ⟨dictErase st.peers pid, purgePending st.requests pid⟩

/-- The receive loop of one session (source lines 72-162) over a finite
inbound trace.  Each trace item is a decoded message or `none` for an
undecodable payload: `receive_json` then raises, the exception leaves the
`while` loop, and the `finally` cleanup runs — so an undecodable message
ends the session and the remaining trace is never processed.  An exhausted
trace stands for the transport-level disconnect, which takes the same
`finally` path. -/
def runSession (peerId : String) : ServerState → List (Option Msg) →
    ServerState × List (Nat × OutMsg)
  | st, [] => (disconnect peerId st, [])
  | st, none :: _ => (disconnect peerId st, [])
  | st, some m :: rest =>
      ((runSession peerId (handleMessage peerId st m).1 rest).1,
       (handleMessage peerId st m).2 ++ (runSession peerId (handleMessage peerId st m).1 rest).2)

/-- Body of a `POST /request` call, with every field the endpoint reads. -/
structure HttpReq where
  url : Option String := none
  peer_id : Option String := none
  request_type : Option String := none
  method : Option String := none
  headers : Option (List (String × String)) := none
  body : Option String := none
deriving DecidableEq

/-- The JSON response of `POST /request`. -/
inductive HttpResp where
  | okResp (request_id : String)
  | errResp (status : Nat) (message : String)
deriving DecidableEq

/-- The `POST /request` endpoint (source lines 164-201): validate the URL,
require the requesting peer to be registered, insert the pending entry,
then pick the first other peer; on success record it and send the `fetch`
(method not uppercased on this path), on failure answer 503 — leaving the
freshly inserted pending entry in the table. -/
def http_request (st : ServerState) (d : HttpReq) :
    ServerState × List (Nat × OutMsg) × HttpResp :=
  if isValidUrl d.url then
    match d.peer_id with
    | some p =>
        match dictLookup st.peers p with
        | some _ =>
            match firstOther st.peers (some p) with
            | some tp =>
                match dictLookup st.peers tp with
                | some ws =>
                    (⟨st.peers,
                      dictInsert
                        (dictInsert st.requests (p ++ "_" ++ (d.url.getD "").take 50)
                          ⟨some p, none, some (d.request_type.getD "static")⟩)
                        (p ++ "_" ++ (d.url.getD "").take 50)
                        ⟨some p, some tp, some (d.request_type.getD "static")⟩⟩,
                     [(ws, OutMsg.fetch d.url (p ++ "_" ++ (d.url.getD "").take 50)
                        (some (d.request_type.getD "static")) (d.method.getD "GET")
                        (d.headers.getD []) d.body)],
                     HttpResp.okResp (p ++ "_" ++ (d.url.getD "").take 50))
                | none =>
                    (⟨st.peers,
                      dictInsert
                        (dictInsert st.requests (p ++ "_" ++ (d.url.getD "").take 50)
                          ⟨some p, none, some (d.request_type.getD "static")⟩)
                        (p ++ "_" ++ (d.url.getD "").take 50)
                        ⟨some p, some tp, some (d.request_type.getD "static")⟩⟩, [],
                     HttpResp.okResp (p ++ "_" ++ (d.url.getD "").take 50))
            | none =>
                (⟨st.peers,
                  dictInsert st.requests (p ++ "_" ++ (d.url.getD "").take 50)
                    ⟨some p, none, some (d.request_type.getD "static")⟩⟩, [],
                 HttpResp.errResp 503 "Nenhum peer disponível")
        | none => (st, [], HttpResp.errResp 400 "Peer não conectado")
    | none => (st, [], HttpResp.errResp 400 "Peer não conectado")
  else (st, [], HttpResp.errResp 400 "URL inválida")

/-! ### Basic lemmas about the dictionary model -/

theorem dictLookup_dictInsert {α : Type} (l : List (String × α)) (k : String) (v : α) :
    dictLookup (dictInsert l k v) k = some v := by
  induction l with
  | nil => simp [dictInsert, dictLookup]
  | cons p rest ih =>
      by_cases h : p.1 = k
      · simp [dictInsert, dictLookup, h]
      · simp [dictInsert, dictLookup, h, ih]

theorem dictLookup_dictErase {α : Type} (l : List (String × α)) (k : String) :
    dictLookup (dictErase l k) k = none := by
  induction l with
  | nil => rfl
  | cons p rest ih =>
      by_cases h : p.1 = k
      · simpa [dictErase, h] using ih
      · simp [dictErase, dictLookup, h, ih]

theorem dictLookup_mem {α : Type} {l : List (String × α)} {k : String} {v : α}
    (h : dictLookup l k = some v) : (k, v) ∈ l := by
  induction l with
  | nil => simp [dictLookup] at h
  | cons p rest ih =>
      by_cases hk : p.1 = k
      · simp [dictLookup, hk] at h
        subst hk
        subst h
        exact List.mem_cons_self _ _
      · simp [dictLookup, hk] at h
        exact List.mem_cons_of_mem _ (ih h)

theorem dictLookup_eq_none_of_not_mem {α : Type} {l : List (String × α)} {k : String}
    (h : k ∉ l.map Prod.fst) : dictLookup l k = none := by
  induction l with
  | nil => rfl
  | cons p rest ih =>
      simp only [List.map_cons, List.mem_cons] at h
      push_neg at h
      have h1 : p.1 ≠ k := fun hx => h.1 hx.symm
      simp [dictLookup, h1, ih h.2]

theorem dictLookup_filter_of_none {α : Type} {f : String × α → Bool}
    {l : List (String × α)} {k : String}
    (h : dictLookup l k = none) : dictLookup (l.filter f) k = none := by
  induction l with
  | nil => rfl
  | cons p rest ih =>
      obtain ⟨a, b⟩ := p
      by_cases hk : a = k
      · simp [dictLookup, hk] at h
      · simp only [dictLookup, hk, if_false] at h
        rw [List.filter_cons]
        by_cases hf : f (a, b) = true
        · rw [if_pos hf]
          simp [dictLookup, hk, ih h]
        · rw [if_neg hf]
          exact ih h

theorem dictLookup_filter_of_false {α : Type} {f : String × α → Bool}
    {l : List (String × α)} {k : String} {v : α}
    (hnd : (l.map Prod.fst).Nodup)
    (h : dictLookup l k = some v) (hf : f (k, v) = false) :
    dictLookup (l.filter f) k = none := by
  induction l with
  | nil => cases h
  | cons p rest ih =>
      obtain ⟨a, b⟩ := p
      simp only [List.map_cons, List.nodup_cons] at hnd
      by_cases hk : a = k
      · have hv : b = v := by simpa [dictLookup, hk] using h
        subst hv
        subst hk
        rw [List.filter_cons, if_neg (by simp [hf])]
        exact dictLookup_filter_of_none (dictLookup_eq_none_of_not_mem hnd.1)
      · simp only [dictLookup, hk, if_false] at h
        rw [List.filter_cons]
        by_cases hfa : f (a, b) = true
        · rw [if_pos hfa]
          simp [dictLookup, hk, ih hnd.2 h]
        · rw [if_neg hfa]
          exact ih hnd.2 h

theorem dictLookup_purgePending_of_none {reqs : List (String × ReqInfo)} {pid rid : String}
    (h : dictLookup reqs rid = none) : dictLookup (purgePending reqs pid) rid = none :=
  dictLookup_filter_of_none h

theorem dictLookup_purgePending_of_match {reqs : List (String × ReqInfo)} {pid rid : String}
    {info : ReqInfo} (hnd : (reqs.map Prod.fst).Nodup)
    (h : dictLookup reqs rid = some info)
    (hm : info.client_id = some pid ∨ info.source_peer_id = some pid) :
    dictLookup (purgePending reqs pid) rid = none := by
  apply dictLookup_filter_of_false hnd h
  rcases hm with hm | hm
  · simp [hm]
  · simp [hm]

theorem dictLookup_purgePending_sound {reqs : List (String × ReqInfo)} {pid rid : String}
    {info : ReqInfo} (h : dictLookup (purgePending reqs pid) rid = some info) :
    info.client_id ≠ some pid ∧ info.source_peer_id ≠ some pid := by
  have hmem := dictLookup_mem h
  have := List.of_mem_filter hmem
  simp only [Bool.not_eq_true', decide_eq_false_iff_not] at this
  push_neg at this
  exact ⟨this.2, this.1⟩

/-! ### Lemmas about the handler branches -/

theorem mem_sendErrorTo {st : ServerState} {cid : Option String} {rid emsg : String}
    {ws : Nat} {out : OutMsg} (h : (ws, out) ∈ sendErrorTo st cid rid emsg) :
    out = OutMsg.errorMsg rid emsg := by
  cases cid with
  | none => simp [sendErrorTo] at h
  | some c =>
      cases hl : dictLookup st.peers c with
      | none => simp [sendErrorTo, hl] at h
      | some w =>
          simp only [sendErrorTo, hl, List.mem_singleton, Prod.mk.injEq] at h
          exact h.2

theorem handleMessage_of_request {peerId : String} {st : ServerState} {m : Msg}
    (h : m.type = some "request") :
    handleMessage peerId st m = handleRequest peerId st m := by
  unfold handleMessage
  rw [h]
  rw [if_pos rfl]

theorem handleMessage_of_response {peerId : String} {st : ServerState} {m : Msg}
    (h : m.type = some "response") :
    handleMessage peerId st m = handleResponse peerId st m := by
  unfold handleMessage
  rw [h]
  rw [if_neg (by decide), if_pos rfl]

theorem handleMessage_of_stream_chunk {peerId : String} {st : ServerState} {m : Msg}
    (h : m.type = some "stream_chunk") :
    handleMessage peerId st m = handleStreamChunk peerId st m := by
  unfold handleMessage
  rw [h]
  rw [if_neg (by decide), if_neg (by decide), if_pos rfl]

theorem handleMessage_of_error {peerId : String} {st : ServerState} {m : Msg}
    (h : m.type = some "error") :
    handleMessage peerId st m = handleError peerId st m := by
  unfold handleMessage
  rw [h]
  rw [if_neg (by decide), if_neg (by decide), if_neg (by decide), if_pos rfl]

theorem lookupClientWs_of_no_entry {st : ServerState} {rid : String}
    (h : dictLookup st.requests rid = none) : lookupClientWs st rid = none := by
  unfold lookupClientWs
  rw [h]

/-- Shared content of claims about stale correlation ids: a `response`,
`stream_chunk` or `error` message whose correlation id has no pending entry
changes nothing and sends nothing. -/
theorem stale_drop_aux (peerId : String) (st : ServerState) (m : Msg)
    (hty : m.type = some "response" ∨ m.type = some "stream_chunk" ∨ m.type = some "error")
    (hlk : dictLookup st.requests (corrId peerId m) = none) :
    handleMessage peerId st m = (st, []) := by
  rcases hty with h | h | h
  · rw [handleMessage_of_response h]
    unfold handleResponse
    rw [lookupClientWs_of_no_entry hlk]
  · rw [handleMessage_of_stream_chunk h]
    unfold handleStreamChunk
    rw [lookupClientWs_of_no_entry hlk]
  · rw [handleMessage_of_error h]
    unfold handleError
    rw [lookupClientWs_of_no_entry hlk]

/-! ### Claim C1 -/

/-- Claim C1 (amended): for an inbound `request` with a valid URL for which
executor resolution fails, the registry is unchanged and the relay replies
with an `error` carrying the request correlation id to the identity named
in `from` when that identity is registered, and no `fetch` is sent to
anyone — but, contrary to the claim, the Pending Request Table is changed:
an entry with unset executor is inserted for the correlation id and stays
in the table.  The same happens on the `POST /request` path (last
conjunct): the entry is inserted and survives the 503 answer. -/
theorem request_no_executor (peerId : String) (st : ServerState) (m : Msg)
    (hty : m.type = some "request") (hurl : isValidUrl m.url = true)
    (hexec : firstOther st.peers m.from_ = none) :
    (handleMessage peerId st m).1.peers = st.peers
    ∧ (handleMessage peerId st m).1.requests
        = dictInsert st.requests (corrId peerId m) ⟨m.from_, none, m.request_type⟩
    ∧ (∀ ws out, (ws, out) ∈ (handleMessage peerId st m).2 → out.isFetch = false)
    ∧ (∀ cid ws, m.from_ = some cid → dictLookup st.peers cid = some ws →
        (handleMessage peerId st m).2
          = [(ws, OutMsg.errorMsg (corrId peerId m) "Nenhum peer disponível")])
    ∧ (∀ (d : HttpReq) (p : String) (w : Nat), d.peer_id = some p →
        isValidUrl d.url = true → dictLookup st.peers p = some w →
        firstOther st.peers (some p) = none →
        (http_request st d).1.requests
          = dictInsert st.requests (p ++ "_" ++ (d.url.getD "").take 50)
              ⟨some p, none, some (d.request_type.getD "static")⟩
        ∧ (http_request st d).2.2 = HttpResp.errResp 503 "Nenhum peer disponível") := by
  have hres : handleMessage peerId st m
      = (⟨st.peers, dictInsert st.requests (corrId peerId m) ⟨m.from_, none, m.request_type⟩⟩,
         sendErrorTo st m.from_ (corrId peerId m) "Nenhum peer disponível") := by
    rw [handleMessage_of_request hty]
    unfold handleRequest
    rw [if_pos hurl, hexec]
  refine ⟨?_, ?_, ?_, ?_, ?_⟩
  · rw [hres]
  · rw [hres]
  · intro ws out hmem
    rw [hres] at hmem
    rw [mem_sendErrorTo hmem]
    rfl
  · intro cid ws hfrom hlook
    rw [hres]
    simp [sendErrorTo, hfrom, hlook]
  · intro d p w hdp hdurl hw hfo
    unfold http_request
    rw [if_pos hdurl, hdp]
    simp only [hw, hfo]
    exact ⟨trivial, trivial⟩

set_option maxRecDepth 8192 in
/-- Claim C1 witness: a lone peer `alice` sends a valid request; she gets
the no-peer `error` back and the pending entry is nevertheless created. -/
theorem request_no_executor_witness :
    (handleMessage "alice" ⟨[("alice", 7)], []⟩
        { type := some "request", url := some "http://example.com/a", from_ := some "alice" }).2
      = [(7, OutMsg.errorMsg "alice_http://example.com/a" "Nenhum peer disponível")]
    ∧ (handleMessage "alice" ⟨[("alice", 7)], []⟩
        { type := some "request", url := some "http://example.com/a", from_ := some "alice" }).1.requests
      = [("alice_http://example.com/a", ⟨some "alice", none, none⟩)] := by
  have h := request_no_executor "alice" ⟨[("alice", 7)], []⟩
    { type := some "request", url := some "http://example.com/a", from_ := some "alice" }
    rfl (by decide) rfl
  have hc : corrId "alice"
      ({ type := some "request", url := some "http://example.com/a", from_ := some "alice" } : Msg)
      = "alice_http://example.com/a" := by decide
  constructor
  · rw [h.2.2.2.1 "alice" 7 rfl rfl, hc]
  · rw [h.2.1, hc]
    rfl

/-- Claim C1 counterexample: the claim as stated is false — after a valid
`request` from a lone peer with nobody to execute it, the Pending Request
Table is not unchanged: the handler has inserted an entry. -/
theorem request_no_executor_cex :
    (handleMessage "alice" ⟨[("alice", 9)], []⟩
        { type := some "request", url := some "http://example.com/b", from_ := some "alice" }).1.requests
      ≠ (⟨[("alice", 9)], []⟩ : ServerState).requests := by decide

/-! ### Claim C2 -/

/-- Claim C2 (amended): the registry holds at most one session per identity.
Registering a second session under an identity replaces the first binding
(`peers[peer_id] = websocket` on a plain dict), and the disconnect cleanup
of any of the identity sessions deletes the identity registry entry
outright and purges every pending request naming the identity, sibling
sessions notwithstanding. -/
theorem single_session_per_identity (st : ServerState) (pid : String) (w1 w2 : Nat)
    (rid : String) (info : ReqInfo) :
    dictLookup ((connect pid w2 (connect pid w1 st)).peers) pid = some w2
    ∧ dictLookup ((disconnect pid (connect pid w2 (connect pid w1 st))).peers) pid = none
    ∧ (dictLookup ((disconnect pid st).requests) rid = some info →
        info.client_id ≠ some pid ∧ info.source_peer_id ≠ some pid) := by
  refine ⟨?_, ?_, ?_⟩
  · exact dictLookup_dictInsert _ _ _
  · exact dictLookup_dictErase _ _
  · intro h
    exact dictLookup_purgePending_sound h

/-- Claim C2 witness: `bob` registers twice, the registry keeps only the
second session; any disconnect for `bob` empties his registry entry, while
entries of other identities survive the purge. -/
theorem single_session_per_identity_witness :
    dictLookup ((connect "bob" 2 (connect "bob" 1
        ⟨[("alice", 0)], [("r9", ⟨some "carol", none, none⟩)]⟩)).peers) "bob" = some 2
    ∧ dictLookup ((disconnect "bob" (connect "bob" 2 (connect "bob" 1
        ⟨[("alice", 0)], [("r9", ⟨some "carol", none, none⟩)]⟩))).peers) "bob" = none
    ∧ ((⟨some "carol", none, none⟩ : ReqInfo).client_id ≠ some "bob"
        ∧ (⟨some "carol", none, none⟩ : ReqInfo).source_peer_id ≠ some "bob") := by
  have h := single_session_per_identity
    ⟨[("alice", 0)], [("r9", ⟨some "carol", none, none⟩)]⟩ "bob" 1 2 "r9"
    ⟨some "carol", none, none⟩
  exact ⟨h.1, h.2.1, h.2.2 (by decide)⟩

/-- Claim C2 counterexample: the claim as stated is false — after `bob`
opens a second session, the registry holds only the second one (the first
is not preserved), and when one of the sessions disconnects, `bob` is
dropped from the registry entirely and his pending request is purged, even
though a sibling session is still open. -/
theorem single_session_per_identity_cex :
    (connect "bob" 2 (connect "bob" 1 ⟨[], []⟩)).peers = [("bob", 2)]
    ∧ disconnect "bob" ⟨[("bob", 2)], [("r1", ⟨some "bob", none, none⟩)]⟩
        = (⟨[], []⟩ : ServerState) := by
  exact ⟨rfl, rfl⟩

/-! ### Claim C3 -/

/-- Claim C3 (amended): an undecodable inbound message does not leave the
session open — `receive_json` raises, the receive loop exits, no reply is
sent, no later message of the trace is processed, and the `finally`
cleanup runs: the sender identity is removed from the registry and its
pending requests are purged. -/
theorem malformed_closes_session (peerId : String) (st : ServerState)
    (rest : List (Option Msg)) :
    runSession peerId st (none :: rest) = (disconnect peerId st, [])
    ∧ dictLookup (disconnect peerId st).peers peerId = none :=
  ⟨rfl, dictLookup_dictErase _ _⟩

/-- Claim C3 counterexample: the claim as stated is false — on `bob`'s
session an undecodable message arrives followed by a valid request; the
run sends nothing (the valid request is never processed), removes `bob`
from the registry and purges his pending entry, instead of skipping the
malformed message and carrying on with the session and state intact. -/
theorem malformed_closes_session_cex :
    runSession "bob" ⟨[("alice", 1), ("bob", 2)], [("r1", ⟨some "bob", none, none⟩)]⟩
        [none, some { type := some "request", url := some "http://example.com/a",
                      from_ := some "alice" }]
      = (⟨[("alice", 1)], []⟩, []) := by decide

/-! ### Claim C4 -/

/-- Claim C4 (amended): the `target_peer_id` field of a `request` is ignored
— the handler result is literally independent of it — and for every valid
request the resolved executor is the first registered identity differing
from the requester (`from`) in registry insertion order; the `fetch` goes
to that identity session and it is recorded as `source_peer_id`. -/
theorem target_peer_id_ignored (peerId : String) (st : ServerState) (m : Msg)
    (x : Option String) (tp : String) (ws : Nat)
    (hty : m.type = some "request") (hurl : isValidUrl m.url = true)
    (hfo : firstOther st.peers m.from_ = some tp)
    (hws : dictLookup st.peers tp = some ws) :
    handleMessage peerId st { m with target_peer_id := x } = handleMessage peerId st m
    ∧ (handleMessage peerId st m).2
        = [(ws, OutMsg.fetch m.url (corrId peerId m) m.request_type
            (pyUpper (m.method.getD "GET")) (m.headers.getD []) m.body)]
    ∧ dictLookup (handleMessage peerId st m).1.requests (corrId peerId m)
        = some ⟨m.from_, some tp, m.request_type⟩ := by
  have hres : handleMessage peerId st m
      = (⟨st.peers,
          dictInsert (dictInsert st.requests (corrId peerId m) ⟨m.from_, none, m.request_type⟩)
            (corrId peerId m) ⟨m.from_, some tp, m.request_type⟩⟩,
         [(ws, OutMsg.fetch m.url (corrId peerId m) m.request_type
            (pyUpper (m.method.getD "GET")) (m.headers.getD []) m.body)]) := by
    rw [handleMessage_of_request hty]
    unfold handleRequest
    rw [if_pos hurl]
    simp only [hfo, hws]
  refine ⟨?_, ?_, ?_⟩
  · have hty2 : ({ m with target_peer_id := x } : Msg).type = some "request" := hty
    have hurl2 : isValidUrl ({ m with target_peer_id := x } : Msg).url = true := hurl
    have hres2 : handleMessage peerId st { m with target_peer_id := x }
        = (⟨st.peers,
            dictInsert (dictInsert st.requests (corrId peerId m) ⟨m.from_, none, m.request_type⟩)
              (corrId peerId m) ⟨m.from_, some tp, m.request_type⟩⟩,
           [(ws, OutMsg.fetch m.url (corrId peerId m) m.request_type
              (pyUpper (m.method.getD "GET")) (m.headers.getD []) m.body)]) := by
      rw [handleMessage_of_request hty2]
      unfold handleRequest
      rw [if_pos hurl2]
      simp only [hfo, hws]
      rfl
    rw [hres2, hres]
  · rw [hres]
  · rw [hres]
    exact dictLookup_dictInsert _ _ _

set_option maxRecDepth 8192 in
/-- Claim C4 witness: with `alice`, `bob`, `carol` registered in that order,
`alice`'s request resolves to `bob` whatever `target_peer_id` says, the
`fetch` goes to `bob`'s session, and `bob` is recorded as executor. -/
theorem target_peer_id_ignored_witness :
    handleMessage "alice" ⟨[("alice", 10), ("bob", 11), ("carol", 12)], []⟩
        { type := some "request", url := some "http://example.com/d", from_ := some "alice",
          target_peer_id := some "dave" }
      = handleMessage "alice" ⟨[("alice", 10), ("bob", 11), ("carol", 12)], []⟩
        { type := some "request", url := some "http://example.com/d", from_ := some "alice" }
    ∧ (handleMessage "alice" ⟨[("alice", 10), ("bob", 11), ("carol", 12)], []⟩
        { type := some "request", url := some "http://example.com/d", from_ := some "alice" }).2
      = [(11, OutMsg.fetch (some "http://example.com/d") "alice_http://example.com/d"
            none "GET" [] none)]
    ∧ dictLookup (handleMessage "alice" ⟨[("alice", 10), ("bob", 11), ("carol", 12)], []⟩
        { type := some "request", url := some "http://example.com/d", from_ := some "alice" }).1.requests
        "alice_http://example.com/d"
      = some ⟨some "alice", some "bob", none⟩ := by
  have h := target_peer_id_ignored "alice" ⟨[("alice", 10), ("bob", 11), ("carol", 12)], []⟩
    { type := some "request", url := some "http://example.com/d", from_ := some "alice" }
    (some "dave") "bob" 11 rfl (by decide) rfl rfl
  have hc : corrId "alice"
      ({ type := some "request", url := some "http://example.com/d", from_ := some "alice" } : Msg)
      = "alice_http://example.com/d" := by decide
  refine ⟨h.1, ?_, ?_⟩
  · exact h.2.1.trans (by decide)
  · have h3 := h.2.2
    rw [hc] at h3
    exact h3

set_option maxRecDepth 8192 in
/-- Claim C4 counterexample: the claim as stated is false — `alice` names
the registered identity `carol` as `target_peer_id`, yet the `fetch` is
sent to `bob`'s session 21 (the first other registry entry) and `bob`, not
`carol`, is recorded as executor. -/
theorem target_peer_id_ignored_cex :
    ((handleMessage "alice" ⟨[("alice", 20), ("bob", 21), ("carol", 22)], []⟩
        { type := some "request", url := some "http://example.com/c", from_ := some "alice",
          target_peer_id := some "carol" }).2.map Prod.fst = [21])
    ∧ dictLookup (handleMessage "alice" ⟨[("alice", 20), ("bob", 21), ("carol", 22)], []⟩
        { type := some "request", url := some "http://example.com/c", from_ := some "alice",
          target_peer_id := some "carol" }).1.requests "alice_http://example.com/c"
      = some ⟨some "alice", some "bob", none⟩ := by decide

/-! ### Claim C5 -/

/-- Claim C5 (amended): the `fetch` sent to the resolved executor carries
the request url, request_type, headers and body verbatim, the method
uppercased (defaulting to GET), and the resolved correlation id — but,
contrary to the claim, no `from` field: the fetch dict literal has exactly
the keys type, url, request_id, request_type, method, headers, body. -/
theorem fetch_payload_fields (peerId : String) (st : ServerState) (m : Msg)
    (tp : String) (ws : Nat)
    (hty : m.type = some "request") (hurl : isValidUrl m.url = true)
    (hfo : firstOther st.peers m.from_ = some tp)
    (hws : dictLookup st.peers tp = some ws) :
    (handleMessage peerId st m).2
      = [(ws, OutMsg.fetch m.url (corrId peerId m) m.request_type
          (pyUpper (m.method.getD "GET")) (m.headers.getD []) m.body)]
    ∧ (∀ (u : Option String) (rid : String) (rt : Option String) (mth : String)
        (hd : List (String × String)) (bd : Option String),
        "from" ∉ (OutMsg.fetch u rid rt mth hd bd).jsonKeys) := by
  constructor
  · rw [handleMessage_of_request hty]
    unfold handleRequest
    rw [if_pos hurl]
    simp only [hfo, hws]
  · intro u rid rt mth hd bd
    show "from" ∉ (["type", "url", "request_id", "request_type", "method", "headers", "body"] : List String)
    decide

set_option maxRecDepth 8192 in
/-- Claim C5 witness: a full request (`post` method, headers, body, stream
kind) is mirrored into the `fetch` with the method uppercased and the
derived correlation id, and the fetch payload has no `from` key. -/
theorem fetch_payload_fields_witness :
    (handleMessage "alice" ⟨[("alice", 30), ("bob", 31)], []⟩
        { type := some "request", url := some "http://example.com/f", from_ := some "alice",
          method := some "post", headers := some [("k", "v")], body := some "B",
          request_type := some "stream" }).2
      = [(31, OutMsg.fetch (some "http://example.com/f") "alice_http://example.com/f"
            (some "stream") "POST" [("k", "v")] (some "B"))]
    ∧ "from" ∉ (OutMsg.fetch (some "http://example.com/f") "alice_http://example.com/f"
            (some "stream") "POST" [("k", "v")] (some "B")).jsonKeys := by
  have h := fetch_payload_fields "alice" ⟨[("alice", 30), ("bob", 31)], []⟩
    { type := some "request", url := some "http://example.com/f", from_ := some "alice",
      method := some "post", headers := some [("k", "v")], body := some "B",
      request_type := some "stream" } "bob" 31 rfl (by decide) rfl rfl
  have hc : corrId "alice"
      ({ type := some "request", url := some "http://example.com/f", from_ := some "alice",
         method := some "post", headers := some [("k", "v")], body := some "B",
         request_type := some "stream" } : Msg)
      = "alice_http://example.com/f" := by decide
  constructor
  · exact h.1.trans (by decide)
  · exact h.2 _ _ _ _ _ _

set_option maxRecDepth 8192 in
/-- Claim C5 counterexample: the claim as stated is false — the `fetch`
actually produced for `alice`'s request carries no `from` field (its JSON
keys do not include `from`), so the original requester identity is not
forwarded to the executor. -/
theorem fetch_payload_fields_cex :
    (handleMessage "alice" ⟨[("alice", 1), ("bob", 2)], []⟩
        { type := some "request", url := some "http://example.com/e", from_ := some "alice" }).2
      = [(2, OutMsg.fetch (some "http://example.com/e") "alice_http://example.com/e"
            none "GET" [] none)]
    ∧ "from" ∉ (OutMsg.fetch (some "http://example.com/e") "alice_http://example.com/e"
          none "GET" [] none).jsonKeys := by decide

/-! ### Claim C6 -/

/-- Claim C6 (amended): a `request` whose URL fails the basic
absolute-HTTP(S) shape changes neither the registry nor the pending table
and never produces a `fetch`; the `error` reply carrying the correlation
id goes to the identity named in the request `from` field when that
identity is registered — which is the sender in the ordinary case — but
when `from` is absent no reply is sent at all. -/
theorem invalid_url_rejected (peerId : String) (st : ServerState) (m : Msg)
    (hty : m.type = some "request") (hurl : isValidUrl m.url = false) :
    (handleMessage peerId st m).1 = st
    ∧ (∀ ws out, (ws, out) ∈ (handleMessage peerId st m).2 → out.isFetch = false)
    ∧ (∀ cid ws, m.from_ = some cid → dictLookup st.peers cid = some ws →
        (handleMessage peerId st m).2
          = [(ws, OutMsg.errorMsg (corrId peerId m) "URL inválida")])
    ∧ (m.from_ = none → (handleMessage peerId st m).2 = []) := by
  have hres : handleMessage peerId st m
      = (st, sendErrorTo st m.from_ (corrId peerId m) "URL inválida") := by
    rw [handleMessage_of_request hty]
    unfold handleRequest
    rw [if_neg (by simp [hurl])]
  refine ⟨by rw [hres], ?_, ?_, ?_⟩
  · intro ws out hmem
    rw [hres] at hmem
    rw [mem_sendErrorTo hmem]
    rfl
  · intro cid ws hf hl
    rw [hres]
    simp [sendErrorTo, hf, hl]
  · intro hf
    rw [hres]
    simp [sendErrorTo, hf]

set_option maxRecDepth 8192 in
/-- Claim C6 witness: `bob` sends `not-a-url` naming himself in `from`; he
gets the `error` with the derived correlation id and the state is
untouched. -/
theorem invalid_url_rejected_witness :
    (handleMessage "bob" ⟨[("bob", 5)], []⟩
        { type := some "request", url := some "not-a-url", from_ := some "bob" }).1
      = (⟨[("bob", 5)], []⟩ : ServerState)
    ∧ (handleMessage "bob" ⟨[("bob", 5)], []⟩
        { type := some "request", url := some "not-a-url", from_ := some "bob" }).2
      = [(5, OutMsg.errorMsg "bob_not-a-url" "URL inválida")] := by
  have h := invalid_url_rejected "bob" ⟨[("bob", 5)], []⟩
    { type := some "request", url := some "not-a-url", from_ := some "bob" }
    rfl (by decide)
  exact ⟨h.1, (h.2.2.1 "bob" 5 rfl rfl).trans (by decide)⟩

set_option maxRecDepth 8192 in
/-- Claim C6 counterexample: the claim as stated is false — the registered
sender `alice` submits a `request` with an invalid URL and no `from`
field; the relay sends no reply at all, although the claim promises an
`error` reply to the sender. -/
theorem invalid_url_rejected_cex :
    (handleMessage "alice" ⟨[("alice", 0)], []⟩
        ({ type := some "request", url := some "not-a-url" } : Msg)).2 = [] := by decide

/-! ### Claim C7 -/

/-- Claim C7 (confirmed): the correlation id is the requester-supplied
`request_id` verbatim when present, and otherwise exactly
`{from identity, defaulting to the sender}_{first 50 characters of URL}`;
hence two explicit-id-free requests of the same identity whose URLs agree
on the first 50 characters share one correlation id, and handling the
second overwrites the pending entry of the first (the stored entry carries
the second request data). -/
theorem corrId_derivation (peerId : String) (st : ServerState) (m0 m1 m2 : Msg)
    (rid0 c : String) :
    (m0.request_id = some rid0 → corrId peerId m0 = rid0)
    ∧ (m1.request_id = none →
        corrId peerId m1 = (m1.from_.getD peerId) ++ "_" ++ (m1.url.getD "").take 50)
    ∧ (m1.type = some "request" → m2.type = some "request" →
        isValidUrl m1.url = true → isValidUrl m2.url = true →
        m1.request_id = none → m2.request_id = none →
        m1.from_ = some c → m2.from_ = some c →
        (m1.url.getD "").take 50 = (m2.url.getD "").take 50 →
        corrId peerId m1 = corrId peerId m2
        ∧ ∃ ex, dictLookup
            (handleMessage peerId (handleMessage peerId st m1).1 m2).1.requests
            (corrId peerId m1)
          = some ⟨m2.from_, ex, m2.request_type⟩) := by
  refine ⟨?_, ?_, ?_⟩
  · intro h
    simp [corrId, h]
  · intro h
    simp [corrId, h]
  · intro ht1 ht2 hu1 hu2 hr1 hr2 hf1 hf2 hpref
    have hcc : corrId peerId m1 = corrId peerId m2 := by
      simp [corrId, hr1, hr2, hf1, hf2, hpref]
    refine ⟨hcc, ?_⟩
    cases hfo : firstOther (handleMessage peerId st m1).1.peers m2.from_ with
    | some tp =>
        cases hws : dictLookup (handleMessage peerId st m1).1.peers tp with
        | some w =>
            refine ⟨some tp, ?_⟩
            rw [handleMessage_of_request ht2]
            unfold handleRequest
            rw [if_pos hu2]
            simp only [hfo, hws]
            rw [hcc]
            exact dictLookup_dictInsert _ _ _
        | none =>
            refine ⟨some tp, ?_⟩
            rw [handleMessage_of_request ht2]
            unfold handleRequest
            rw [if_pos hu2]
            simp only [hfo, hws]
            rw [hcc]
            exact dictLookup_dictInsert _ _ _
    | none =>
        refine ⟨none, ?_⟩
        rw [handleMessage_of_request ht2]
        unfold handleRequest
        rw [if_pos hu2]
        simp only [hfo]
        rw [hcc]
        exact dictLookup_dictInsert _ _ _

/-- First collision URL of the C7 witness: 50 characters of shared prefix,
then a distinct tail. -/
def urlLong1 : String := "http://example.com/aaaaaaaaaaaaaaaaaaaaaaaaaaaaaaabbb"

/-- Second collision URL of the C7 witness: same first 50 characters as
`urlLong1`, different tail. -/
def urlLong2 : String := "http://example.com/aaaaaaaaaaaaaaaaaaaaaaaaaaaaaaaccc"

set_option maxRecDepth 8192 in
/-- Claim C7 witness: an explicit `request_id` is used verbatim; two
id-free requests of `alice` for `urlLong1` and `urlLong2` (whose first 50
characters agree) collide, and after both are handled the single pending
entry carries the second request kind (`stream`, overwriting `static`). -/
theorem corrId_derivation_witness :
    corrId "alice" ({ request_id := some "my-id" } : Msg) = "my-id"
    ∧ corrId "alice"
        ({ type := some "request", url := some urlLong1, from_ := some "alice",
           request_type := some "static" } : Msg)
      = corrId "alice"
        ({ type := some "request", url := some urlLong2, from_ := some "alice",
           request_type := some "stream" } : Msg)
    ∧ ∃ ex, dictLookup
        (handleMessage "alice"
          (handleMessage "alice" ⟨[("alice", 1), ("bob", 2)], []⟩
            { type := some "request", url := some urlLong1, from_ := some "alice",
              request_type := some "static" }).1
          { type := some "request", url := some urlLong2, from_ := some "alice",
            request_type := some "stream" }).1.requests
        (corrId "alice"
          { type := some "request", url := some urlLong1, from_ := some "alice",
            request_type := some "static" })
      = some ⟨some "alice", ex, some "stream"⟩ := by
  have h := corrId_derivation "alice" ⟨[("alice", 1), ("bob", 2)], []⟩
    ({ request_id := some "my-id" } : Msg)
    { type := some "request", url := some urlLong1, from_ := some "alice",
      request_type := some "static" }
    { type := some "request", url := some urlLong2, from_ := some "alice",
      request_type := some "stream" }
    "my-id" "alice"
  have h3 := h.2.2 rfl rfl (by decide) (by decide) rfl rfl rfl rfl (by decide)
  exact ⟨h.1 rfl, h3.1, h3.2⟩

/-! ### Claim C8 -/

/-- Claim C8 (confirmed): a `response`, `stream_chunk` or `error` message
whose correlation id has no entry in the Pending Request Table is dropped
silently — nothing is sent to anyone and the whole server state (registry
and table) is unchanged. -/
theorem stale_correlation_dropped (peerId : String) (st : ServerState) (m : Msg)
    (hty : m.type = some "response" ∨ m.type = some "stream_chunk" ∨ m.type = some "error")
    (hlk : dictLookup st.requests (corrId peerId m) = none) :
    handleMessage peerId st m = (st, []) :=
  stale_drop_aux peerId st m hty hlk

/-- Claim C8 witness: a `stream_chunk` with the unknown correlation id `zz`
arriving at a state whose table only knows `r1` is dropped and the state
is returned untouched. -/
theorem stale_correlation_dropped_witness :
    handleMessage "bob" ⟨[("alice", 1)], [("r1", ⟨some "alice", none, none⟩)]⟩
        { type := some "stream_chunk", request_id := some "zz", chunk := some "c" }
      = (⟨[("alice", 1)], [("r1", ⟨some "alice", none, none⟩)]⟩, []) :=
  stale_correlation_dropped "bob" ⟨[("alice", 1)], [("r1", ⟨some "alice", none, none⟩)]⟩
    { type := some "stream_chunk", request_id := some "zz", chunk := some "c" }
    (Or.inr (Or.inl rfl)) (by decide)

/-! ### Claim C9 -/

/-- Claim C9 (confirmed): the disconnect cleanup for an identity removes it
from the registry and removes every pending entry whose requester
(`client_id`) or executor (`source_peer_id`) is that identity; a later
`response` bearing such a correlation id finds no entry and is dropped
with the state unchanged.  (The table is assumed to hold each correlation
id once, as a Python dict does.) -/
theorem disconnect_purges (st : ServerState) (pid : String)
    (hnd : (st.requests.map Prod.fst).Nodup) :
    dictLookup (disconnect pid st).peers pid = none
    ∧ (∀ rid info, dictLookup st.requests rid = some info →
        (info.client_id = some pid ∨ info.source_peer_id = some pid) →
        dictLookup (disconnect pid st).requests rid = none)
    ∧ (∀ (sid : String) (m : Msg) (info : ReqInfo),
        m.type = some "response" →
        dictLookup st.requests (corrId sid m) = some info →
        (info.client_id = some pid ∨ info.source_peer_id = some pid) →
        handleMessage sid (disconnect pid st) m = (disconnect pid st, [])) := by
  refine ⟨dictLookup_dictErase _ _, ?_, ?_⟩
  · intro rid info h hm
    exact dictLookup_purgePending_of_match hnd h hm
  · intro sid m info hty h hm
    exact stale_drop_aux sid _ m (Or.inl hty)
      (dictLookup_purgePending_of_match hnd h hm)

/-- Claim C9 witness: after `bob` disconnects, `bob` is gone from the
registry, the entry `r1` (with `bob` as executor) is purged, and a
subsequent `response` for `r1` is dropped on the cleaned state. -/
theorem disconnect_purges_witness :
    dictLookup (disconnect "bob" ⟨[("alice", 1), ("bob", 2)],
        [("r1", ⟨some "alice", some "bob", some "static"⟩),
         ("r2", ⟨some "carol", none, none⟩)]⟩).peers "bob" = none
    ∧ dictLookup (disconnect "bob" ⟨[("alice", 1), ("bob", 2)],
        [("r1", ⟨some "alice", some "bob", some "static"⟩),
         ("r2", ⟨some "carol", none, none⟩)]⟩).requests "r1" = none
    ∧ handleMessage "carol" (disconnect "bob" ⟨[("alice", 1), ("bob", 2)],
        [("r1", ⟨some "alice", some "bob", some "static"⟩),
         ("r2", ⟨some "carol", none, none⟩)]⟩)
        { type := some "response", request_id := some "r1" }
      = (disconnect "bob" ⟨[("alice", 1), ("bob", 2)],
          [("r1", ⟨some "alice", some "bob", some "static"⟩),
           ("r2", ⟨some "carol", none, none⟩)]⟩, []) := by
  have h := disconnect_purges ⟨[("alice", 1), ("bob", 2)],
    [("r1", ⟨some "alice", some "bob", some "static"⟩),
     ("r2", ⟨some "carol", none, none⟩)]⟩ "bob" (by decide)
  refine ⟨h.1, ?_, ?_⟩
  · exact h.2.1 "r1" ⟨some "alice", some "bob", some "static"⟩ rfl (Or.inr rfl)
  · exact h.2.2 "carol" { type := some "response", request_id := some "r1" }
      ⟨some "alice", some "bob", some "static"⟩ rfl rfl (Or.inr rfl)

/-! ### Claim C10 -/

/-- Claim C10 (amended): an inbound `ping` is ignored — the `if`/`elif`
chain of the receive loop has no branch for it, so no `pong` (nor any
other reply) is sent and the registry and pending table are unchanged. -/
theorem ping_ignored (peerId : String) (st : ServerState) (m : Msg)
    (h : m.type = some "ping") :
    handleMessage peerId st m = (st, []) := by
  unfold handleMessage
  rw [h]
  rw [if_neg (by decide), if_neg (by decide), if_neg (by decide), if_neg (by decide)]

/-- Claim C10 witness: a `ping` on an empty relay produces no reply and no
state change. -/
theorem ping_ignored_witness :
    handleMessage "p" ⟨[], []⟩ ({ type := some "ping" } : Msg) = (⟨[], []⟩, []) :=
  ping_ignored "p" ⟨[], []⟩ { type := some "ping" } rfl

/-- Claim C10 counterexample: the claim as stated is false — with peers
registered, `alice`'s `ping` produces no output whatsoever: the relay
never replies with a `pong` (no handler for `ping` exists in the receive
loop). -/
theorem ping_ignored_cex :
    handleMessage "alice" ⟨[("alice", 3), ("bob", 4)], []⟩ ({ type := some "ping" } : Msg)
      = (⟨[("alice", 3), ("bob", 4)], []⟩, []) := by decide

end P2P
